import Mathlib

/-!
Verification development for the gamification and progress-tracking engine
of the tutoring platform (src/database.py, src/models_utils.py).

The relational store is embedded as an explicit per-student state record.
Machine integers of the store are modelled as Int; PostgreSQL integer
division truncates toward zero, which is Int.tdiv. Calendar dates are
modelled as integer day numbers, so the Python (today - last_date).days
becomes integer subtraction. The system clock read by datetime.now().date()
is passed in as the explicit parameter today.
-/

namespace NvEd

/-- A row of the student_gamification table, for one student
(src/database.py, add_points and get_student_gamification). -/
structure StudentGamification where
  total_points : Int
  level : Int
  current_streak : Int
  longest_streak : Int
  last_activity_date : Option Int
  deriving DecidableEq, Repr

/-- The per-student slice of the store touched by add_points: the optional
student_gamification row, the badge_name column of the badges rows of the
student (in insertion order), and the number of notifications rows inserted
for the student. -/
structure GamState where
  profile : Option StudentGamification
  badges : List String
  notif_count : Nat
  deriving DecidableEq, Repr

def bCentury : String := "Century"

def bChampion : String := "Champion"

def bLegend : String := "Legend"

def bWeekWarrior : String := "Week Warrior"

def bMonthMaster : String := "Month Master"

def bRisingStar : String := "Rising Star"

def bSuperstar : String := "Superstar"

/-- src/database.py, _has_badge: SELECT id FROM badges WHERE student_id AND
badge_name; fetchone is not None iff the name is among the student badges. -/
def has_badge (badges : List String) (badge_name : String) : Bool :=
  badges.contains badge_name

/-- src/database.py, _check_and_award_badges lines 818-843: the
badges_to_award list, built in source order. Every has_badge check runs
against the badge set as it was before any insert of this call, because the
inserts all happen in a later loop. total_points and level are re-read
from the row after the UPDATE of add_points, so the caller passes the
post-update values. -/
def badges_to_award (badges : List String) (total_points level current_streak : Int) :
    List String :=
  (if 100 ≤ total_points ∧ has_badge badges bCentury = false then [bCentury] else []) ++
  (if 500 ≤ total_points ∧ has_badge badges bChampion = false then [bChampion] else []) ++
  (if 1000 ≤ total_points ∧ has_badge badges bLegend = false then [bLegend] else []) ++
  (if 7 ≤ current_streak ∧ has_badge badges bWeekWarrior = false then [bWeekWarrior] else []) ++
  (if 30 ≤ current_streak ∧ has_badge badges bMonthMaster = false then [bMonthMaster] else []) ++
  (if 5 ≤ level ∧ has_badge badges bRisingStar = false then [bRisingStar] else []) ++
  (if 10 ≤ level ∧ has_badge badges bSuperstar = false then [bSuperstar] else [])

/-- src/database.py, add_points lines 763-777: the streak update. With a
non-null last_activity_date, days_diff == 1 increments, days_diff > 1
resets to 1, and any other value (0 or negative) leaves the streak as it
is; with a null date the streak becomes 1. -/
def streak_after (last_activity_date : Option Int) (current_streak : Int) (today : Int) : Int :=
  match last_activity_date with
  | some last_date =>
    let days_diff := today - last_date
    if days_diff = 1 then current_streak + 1
    else if days_diff > 1 then 1
    else current_streak
  | none => 1

/-- src/database.py, add_points lines 750-801. When the SELECT finds no
student_gamification row, fetchone returns None and the whole body inside
the if is skipped: no row is created, no badge is checked, the transaction
commits and the function returns True. Otherwise the row is updated with
total_points incremented, the new streak, the new longest streak, the new
level FLOOR((total_points + points) / 100) + 1 computed by the database
from the pre-update total_points, and last_activity_date set to today;
then _check_and_award_badges inserts one badges row and one notifications
row per newly earned badge. The Bool is the return value (True unless the
database raises, which the embedding does not model). -/
def add_points (st : GamState) (points : Int) (today : Int) : GamState × Bool :=
  match st.profile with
  | none => (st, true)
  | some p =>
    let current_streak := streak_after p.last_activity_date p.current_streak today
    let longest_streak := max p.longest_streak current_streak
    let new_total := p.total_points + points
    let new_level := Int.tdiv new_total 100 + 1
    let awarded := badges_to_award st.badges new_total new_level current_streak
    ({ profile := some { total_points := new_total
                         level := new_level
                         current_streak := current_streak
                         longest_streak := longest_streak
                         last_activity_date := some today }
       badges := st.badges ++ awarded
       notif_count := st.notif_count + awarded.length }, true)

/-- src/database.py, _initialize_gamification lines 728-747: INSERT INTO
student_gamification (student_id) ON CONFLICT DO NOTHING. The values the
fresh row receives are the table column defaults, whose schema is not part
of the sources. Modelled from the spec: a profile absent from the store is
created with zero defaults (zero points, zero streaks, no activity date,
hence derived level 1); an existing profile is left untouched. -/
def init_gamification (st : GamState) : GamState :=
  match st.profile with
  | some _ => st
  | none =>
    { st with profile := some { total_points := 0
                                level := 1
                                current_streak := 0
                                longest_streak := 0
                                last_activity_date := none } }

def c1_state : GamState :=
  { profile := some { total_points := 95
                      level := 1
                      current_streak := 6
                      longest_streak := 6
                      last_activity_date := some 41 }
    badges := []
    notif_count := 0 }

/-- C1: a student at totalPoints=95, currentStreak=6, level=1 whose
lastActivityDate is yesterday (day 41, today = day 42) receives
add_points of 10: the persisted profile has totalPoints=105, level=2,
currentStreak=7, the one call awards both the Century and the Week Warrior
badges, and exactly two notification records are inserted. -/
theorem add_points_c1_scenario :
    add_points c1_state 10 42 =
      ({ profile := some { total_points := 105
                           level := 2
                           current_streak := 7
                           longest_streak := 7
                           last_activity_date := some 42 }
         badges := [bCentury, bWeekWarrior]
         notif_count := 2 }, true) := by
  decide

theorem streak_after_same_day (d c : Int) : streak_after (some d) c d = c := by
  simp only [streak_after]
  split_ifs <;> omega

theorem streak_after_next_day (d c : Int) : streak_after (some d) c (d + 1) = c + 1 := by
  simp only [streak_after]
  split_ifs <;> omega

theorem streak_after_five_days (d c : Int) : streak_after (some d) c (d + 5) = 1 := by
  simp only [streak_after]
  split_ifs <;> omega

theorem streak_after_negative_diff (d c today : Int) (h : today - d < 0) :
    streak_after (some d) c today = c := by
  simp only [streak_after]
  split_ifs <;> omega

def c2_state : GamState :=
  { profile := some { total_points := 95
                      level := 1
                      current_streak := 6
                      longest_streak := 6
                      last_activity_date := some 41 }
    badges := []
    notif_count := 0 }

/-- C2 counterexample: a call with the non-positive points value -5 is not
rejected. add_points returns True and the ledger state changes: the total
drops to 90, the streak advances, last_activity_date moves to today. -/
theorem add_points_c2_counterexample :
    (add_points c2_state (-5) 42).2 = true ∧
    (add_points c2_state (-5) 42).1 ≠ c2_state := by
  decide

/-- C2 amended: add_points performs no input validation. A call with
points ≤ 0 succeeds like any other and applies the usual update: the
total becomes total + points, the streak is recomputed from the dates, and
last_activity_date becomes today. -/
theorem add_points_applies_nonpositive (st : GamState) (p : StudentGamification)
    (points today : Int) (hp : st.profile = some p) (_hpts : points ≤ 0) :
    (add_points st points today).2 = true ∧
    ∃ q, (add_points st points today).1.profile = some q ∧
      q.total_points = p.total_points + points ∧
      q.current_streak = streak_after p.last_activity_date p.current_streak today ∧
      q.last_activity_date = some today := by
  obtain ⟨prof, badges, nc⟩ := st
  simp only at hp
  subst hp
  exact ⟨rfl, _, rfl, rfl, rfl, rfl⟩

theorem add_points_applies_nonpositive_witness :
    (add_points c2_state (-5) 42).2 = true ∧
    ∃ q, (add_points c2_state (-5) 42).1.profile = some q ∧
      q.total_points = 95 + (-5) ∧
      q.current_streak = streak_after (some 41) 6 42 ∧
      q.last_activity_date = some 42 :=
  add_points_applies_nonpositive c2_state _ (-5) 42 rfl (by decide)

def c3_state : GamState := { profile := none, badges := [], notif_count := 0 }

/-- C3 counterexample: for a student with no gamification profile,
add_points 10 neither creates a profile nor records the award; the state
is exactly the one before the call, yet the function reports success. -/
theorem add_points_c3_counterexample :
    (add_points c3_state 10 42).1.profile = none ∧
    add_points c3_state 10 42 = (c3_state, true) := by
  decide

/-- C3 amended: add_points does not create a missing profile. When the
student has no student_gamification row the call is a silent no-op that
still returns True; a profile with zero defaults is created only by the
separate explicit initialization routine. -/
theorem add_points_missing_profile (st : GamState) (points today : Int)
    (h : st.profile = none) :
    add_points st points today = (st, true) ∧
    (init_gamification st).profile =
      some { total_points := 0
             level := 1
             current_streak := 0
             longest_streak := 0
             last_activity_date := none } := by
  obtain ⟨prof, badges, nc⟩ := st
  simp only at h
  subst h
  exact ⟨rfl, rfl⟩

theorem add_points_missing_profile_witness :
    add_points c3_state 7 42 = (c3_state, true) ∧
    (init_gamification c3_state).profile =
      some { total_points := 0
             level := 1
             current_streak := 0
             longest_streak := 0
             last_activity_date := none } :=
  add_points_missing_profile c3_state 7 42 rfl

def c4_state : GamState :=
  { profile := some { total_points := 50
                      level := 1
                      current_streak := 6
                      longest_streak := 6
                      last_activity_date := some 43 }
    badges := []
    notif_count := 0 }

/-- C4 counterexample: with lastActivityDate one day in the future
(day 43 while today is day 42), add_points leaves the streak at 6; it is
not reset to 1 as the claim states. -/
theorem add_points_c4_counterexample :
    (add_points c4_state 10 42).1.profile.map StudentGamification.current_streak ≠
      some 1 := by
  decide

/-- C4 amended: when lastActivityDate is strictly later than today, the
days difference is negative, so neither the increment branch nor the
reset branch fires and add_points leaves currentStreak unchanged. -/
theorem add_points_future_date_keeps_streak (st : GamState) (p : StudentGamification)
    (d points today : Int) (hp : st.profile = some p)
    (hd : p.last_activity_date = some d) (hlt : today - d < 0) :
    (add_points st points today).1.profile.map StudentGamification.current_streak =
      some p.current_streak := by
  obtain ⟨prof, badges, nc⟩ := st
  simp only at hp
  subst hp
  show some (streak_after p.last_activity_date p.current_streak today) = _
  rw [hd, streak_after_negative_diff d p.current_streak today hlt]

theorem add_points_future_date_keeps_streak_witness :
    (add_points c4_state 10 42).1.profile.map StudentGamification.current_streak =
      some 6 :=
  add_points_future_date_keeps_streak c4_state _ 43 10 42 rfl rfl (by decide)

/-- C6: after add_points on an existing profile, the stored level equals
floor(totalPoints / 100) + 1 for the post-update total, whenever that
total is non-negative (Nat division is floor division). -/
theorem add_points_level_formula (st : GamState) (p : StudentGamification)
    (points today : Int) (hp : st.profile = some p)
    (hnn : 0 ≤ p.total_points + points) :
    ∃ q, (add_points st points today).1.profile = some q ∧
      q.total_points = p.total_points + points ∧
      q.level = ((q.total_points.toNat / 100 : ℕ) : Int) + 1 := by
  obtain ⟨prof, badges, nc⟩ := st
  simp only at hp
  subst hp
  refine ⟨_, rfl, rfl, ?_⟩
  show Int.tdiv (p.total_points + points) 100 + 1 = _
  rw [← Int.toNat_of_nonneg hnn]
  rfl

theorem add_points_level_formula_witness :
    ∃ q, (add_points c1_state 10 42).1.profile = some q ∧
      q.total_points = 95 + 10 ∧
      q.level = ((q.total_points.toNat / 100 : ℕ) : Int) + 1 :=
  add_points_level_formula c1_state _ 10 42 rfl (by decide)

/-- C7: with an existing profile whose lastActivityDate is day d, a
second call on day d leaves currentStreak unchanged, a call on day d+1
increments it by exactly 1, and a call on day d+5 resets it to 1. -/
theorem add_points_streak_property (st : GamState) (p : StudentGamification)
    (d points today : Int) (hp : st.profile = some p)
    (hd : p.last_activity_date = some d) :
    (today = d →
      (add_points st points today).1.profile.map StudentGamification.current_streak =
        some p.current_streak) ∧
    (today = d + 1 →
      (add_points st points today).1.profile.map StudentGamification.current_streak =
        some (p.current_streak + 1)) ∧
    (today = d + 5 →
      (add_points st points today).1.profile.map StudentGamification.current_streak =
        some 1) := by
  obtain ⟨prof, badges, nc⟩ := st
  simp only at hp
  subst hp
  refine ⟨?_, ?_, ?_⟩ <;> intro ht <;> subst ht <;>
    show some (streak_after p.last_activity_date p.current_streak _) = _ <;>
    rw [hd]
  · rw [streak_after_same_day]
  · rw [streak_after_next_day]
  · rw [streak_after_five_days]

theorem add_points_streak_property_witness :
    (42 = (41 : Int) + 1) ∧
    (add_points c1_state 10 42).1.profile.map StudentGamification.current_streak =
      some (6 + 1) :=
  ⟨by decide,
    (add_points_streak_property c1_state _ 41 10 42 rfl rfl).2.1 (by decide)⟩

theorem mem_if_singleton {c : Prop} [Decidable c] {name b : String}
    (h : b ∈ (if c then [name] else ([] : List String))) : c ∧ b = name := by
  split at h
  · next hc => exact ⟨hc, by simpa using h⟩
  · simp at h

theorem has_badge_false_of_mem_award {badges : List String} {t l s : Int} {b : String}
    (h : b ∈ badges_to_award badges t l s) : has_badge badges b = false := by
  unfold badges_to_award at h
  simp only [List.mem_append, or_assoc] at h
  rcases h with h | h | h | h | h | h | h
  all_goals
    have hc := mem_if_singleton h
    rw [hc.2]
    exact hc.1.2

theorem not_mem_award_of_mem {badges : List String} {t l s : Int} {b : String}
    (hb : b ∈ badges) : b ∉ badges_to_award badges t l s := by
  intro hmem
  have hfalse := has_badge_false_of_mem_award hmem
  have htrue : has_badge badges b = true := List.elem_iff.mpr hb
  rw [htrue] at hfalse
  exact Bool.noConfusion hfalse

/-- C8: once a badge name is recorded for a student, no later add_points
call inserts a second badge with that name: every candidate in
badges_to_award is guarded by a _has_badge check against the pre-call
badge set, so the count of that name in the badges table is unchanged and
the call still returns True (a silent no-op, not an error). -/
theorem add_points_no_duplicate_badge (st : GamState) (b : String)
    (points today : Int) (hb : b ∈ st.badges) :
    (add_points st points today).1.badges.count b = st.badges.count b ∧
    (add_points st points today).2 = true := by
  obtain ⟨prof, badges, nc⟩ := st
  simp only at hb
  cases prof with
  | none => exact ⟨rfl, rfl⟩
  | some p =>
    refine ⟨?_, rfl⟩
    show (badges ++ badges_to_award badges _ _ _).count b = badges.count b
    rw [List.count_append,
      List.count_eq_zero.mpr (not_mem_award_of_mem hb)]
    exact Nat.add_zero _

def c8_state : GamState :=
  { profile := some { total_points := 150
                      level := 2
                      current_streak := 8
                      longest_streak := 8
                      last_activity_date := some 41 }
    badges := [bCentury, bWeekWarrior]
    notif_count := 2 }

theorem add_points_no_duplicate_badge_witness :
    (add_points c8_state 10 42).1.badges.count bCentury =
      c8_state.badges.count bCentury ∧
    (add_points c8_state 10 42).2 = true :=
  add_points_no_duplicate_badge c8_state bCentury 10 42 (by decide)

/-- The ASCII whitespace characters removed by Python str.strip and matched
by the regex class backslash-s. -/
def isPyWs (c : Char) : Bool :=
  c = ' ' || c = '\t' || c = '\n' || c = '\r' || c = '\x0b' || c = '\x0c'

/-- Python str.strip: drop whitespace from both ends. -/
def trimWs (l : List Char) : List Char :=
  ((l.dropWhile isPyWs).reverse.dropWhile isPyWs).reverse

/-- A Python regex word character (ASCII): letter, digit or underscore. -/
def isWordChar (c : Char) : Bool := c.isAlpha || c.isDigit || c = '_'

/-- Python str.startswith: pat is an initial segment of s. -/
def startsWithL (pat s : List Char) : Bool := s.take pat.length == pat

/-- re.search of a word-bounded alternative: some occurrence of pat inside
t has a non-word character or a text edge on both sides. Faithful for the
patterns used here, which all begin and end with word characters, so each
boundary requires exactly a non-word neighbour or the edge. -/
def occursWB (pat t : List Char) : Bool :=
  (List.range (t.length + 1)).any fun i =>
    startsWithL pat (t.drop i) &&
    (i == 0 || !isWordChar (t.getD (i - 1) ' ')) &&
    !isWordChar (t.getD (i + pat.length) ' ')

def kwCorrect : List Char := "correct".data

def kwPartially : List Char := "partially".data

def kwIncorrect : List Char := "incorrect".data

def kwWrong : List Char := "wrong".data

def kwNotCorrect : List Char := "not correct".data

def kwNotRight : List Char := "not right".data

def kwRight : List Char := "right".data

def kwWellDone : List Char := "well done".data

def kwExcellent : List Char := "excellent".data

def kwPerfect : List Char := "perfect".data

def kwGreatJob : List Char := "great job".data

/-- src/database.py, save_practice_result lines 439-457: the inlined
is_correct detection. feedback.lower().strip(); then startswith checks for
correct / partially / incorrect / wrong; then the fallback word-boundary
searches, negative alternatives first. The caret-correct alternative of
the positive regex only matches at position 0 of the text with a word
boundary after it. -/
def save_practice_result_is_correct (feedback : List Char) : Bool :=
  let feedback_lower := trimWs (feedback.map Char.toLower)
  if startsWithL kwCorrect feedback_lower then true
  else if startsWithL kwPartially feedback_lower then false
  else if startsWithL kwIncorrect feedback_lower ||
      startsWithL kwWrong feedback_lower then false
  else if occursWB kwIncorrect feedback_lower || occursWB kwWrong feedback_lower ||
      occursWB kwNotCorrect feedback_lower || occursWB kwNotRight feedback_lower then false
  else if (startsWithL kwCorrect feedback_lower &&
        !isWordChar (feedback_lower.getD kwCorrect.length ' ')) ||
      occursWB kwRight feedback_lower || occursWB kwWellDone feedback_lower ||
      occursWB kwExcellent feedback_lower || occursWB kwPerfect feedback_lower ||
      occursWB kwGreatJob feedback_lower then true
  else false

/-- src/models_utils.py, evaluate_answer lines 359-383: the is_correct
detection on the model feedback. Same cascade: startswith markers first,
then the negative word-boundary search, then the positive one, default
False. -/
def evaluate_answer_is_correct (feedback : List Char) : Bool :=
  let feedback_lower := trimWs (feedback.map Char.toLower)
  if startsWithL kwCorrect feedback_lower then true
  else if startsWithL kwPartially feedback_lower then false
  else if startsWithL kwIncorrect feedback_lower ||
      startsWithL kwWrong feedback_lower then false
  else if occursWB kwIncorrect feedback_lower || occursWB kwWrong feedback_lower ||
      occursWB kwNotCorrect feedback_lower || occursWB kwNotRight feedback_lower then false
  else if (startsWithL kwCorrect feedback_lower &&
        !isWordChar (feedback_lower.getD kwCorrect.length ' ')) ||
      occursWB kwRight feedback_lower || occursWB kwWellDone feedback_lower ||
      occursWB kwExcellent feedback_lower || occursWB kwPerfect feedback_lower ||
      occursWB kwGreatJob feedback_lower then true
  else false

def c5_feedback : List Char := "not entirely correct but well done".data

def c5_feedback_neg : List Char := "not correct but well done".data

/-- C5 counterexample: on the feedback string in question the classifier
returns true, not false: the word ENTIRELY sits between NOT and CORRECT,
so none of the four negative phrases occurs literally, the negative check
fails, and WELL DONE satisfies the positive check. -/
theorem evaluate_answer_c5_counterexample :
    evaluate_answer_is_correct c5_feedback = true := by
  decide

/-- C5 amended: the classifier returns true on the feedback in question,
because no negative phrase occurs literally in it while well done does;
the negative check does run before the positive one, so feedback that
contains a literal negative phrase next to a positive one, such as this
string with ENTIRELY removed, classifies as incorrect. -/
theorem evaluate_answer_mixed_feedback :
    evaluate_answer_is_correct c5_feedback = true ∧
    evaluate_answer_is_correct c5_feedback_neg = false := by
  decide

/-- C10: the correctness classification inlined in save_practice_result
and the classification in evaluate_answer are extensionally equal: both
compute the same cascade on every feedback string. -/
theorem save_practice_result_classifier_refines_evaluate_answer
    (feedback : List Char) :
    save_practice_result_is_correct feedback = evaluate_answer_is_correct feedback :=
  rfl

/-- Python str.split on the newline character: every separator splits,
empty pieces are kept. -/
def splitNl : List Char → List (List Char)
  | [] => [[]]
  | c :: cs =>
    if c = '\n' then [] :: splitNl cs
    else
      match splitNl cs with
      | [] => [[c]]
      | l :: ls => (c :: l) :: ls

/-- Consume a literal case-insensitively from the front of s (the section
regex of _extract_weak_areas_from_analysis carries re.IGNORECASE). -/
def eatLitCI : List Char → List Char → Option (List Char)
  | [], s => some s
  | _ :: _, [] => none
  | p :: ps, c :: cs => if c.toLower = p.toLower then eatLitCI ps cs else none

/-- Consume at least one whitespace character, greedily: the regex piece
backslash-s-plus. -/
def eatWs1 : List Char → Option (List Char)
  | c :: cs => if isPyWs c then some (cs.dropWhile isPyWs) else none
  | [] => none

def hAREA : List Char := "AREA".data

def hFOR : List Char := "FOR".data

def hIMPROVEMENT : List Char := "IMPROVEMENT".data

/-- The header part of the section regex in
_extract_weak_areas_from_analysis (src/database.py lines 326-331): AREA,
an optional S, whitespace, FOR, whitespace, IMPROVEMENT, then any run of
colon, hyphen or en-dash, then any run of whitespace, case-insensitively.
Returns the suffix where the lazy capture group starts. Greedy maximal
consumption is exact here because each consecutive pair of regex pieces
draws from disjoint character classes, so no backtracking can rescue a
failed maximal attempt. -/
def matchHeaderAt (s : List Char) : Option (List Char) :=
  match eatLitCI hAREA s with
  | none => none
  | some s1 =>
    let s2 := match s1 with
      | c :: cs => if c.toLower = 's' then cs else s1
      | [] => s1
    match eatWs1 s2 with
    | none => none
    | some s3 =>
      match eatLitCI hFOR s3 with
      | none => none
      | some s4 =>
        match eatWs1 s4 with
        | none => none
        | some s5 =>
          match eatLitCI hIMPROVEMENT s5 with
          | none => none
          | some s6 =>
            some ((s6.dropWhile fun c => c = ':' || c = '-' || c = '–').dropWhile isPyWs)

/-- re.search scans start positions left to right, so the match is at the
leftmost position where the header matches; once the header matches, the
lazy group together with its end-of-text alternative always completes the
match, so the header position alone decides. -/
def findHeader : List Char → Option (List Char)
  | [] => none
  | s@(_ :: cs) =>
    match matchHeaderAt s with
    | some r => some r
    | none => findHeader cs

/-- The lookahead of the section regex: one or more digits, a dot, one or
more whitespace characters, then a letter ([A-Z] is case-insensitive under
re.IGNORECASE). The digit run is forced by the dot and the whitespace run
by the letter, so maximal runs are exact. -/
def lookaheadNum (s : List Char) : Bool :=
  let ds := s.takeWhile Char.isDigit
  let r1 := s.dropWhile Char.isDigit
  !ds.isEmpty &&
  match r1 with
  | '.' :: r2 =>
    let ws := r2.takeWhile isPyWs
    let r3 := r2.dropWhile isPyWs
    !ws.isEmpty &&
    match r3 with
    | c :: _ => c.isAlpha
    | [] => false
  | _ => false

/-- The lazy capture group: the characters before the earliest position
where the lookahead succeeds, and the whole rest of the text when it never
does (the end-of-text alternative of the lookahead). -/
def takeUntilLookahead : List Char → List Char
  | [] => []
  | s@(c :: cs) => if lookaheadNum s then [] else c :: takeUntilLookahead cs

/-- A non-empty line consisting only of asterisk, bullet and hyphen
glyphs (the skip pattern of the per-line loop). -/
def onlyBullets (l : List Char) : Bool :=
  !l.isEmpty && l.all fun c => c = '*' || c = '•' || c = '-'

def kwYoure : List Char := ['Y', 'o', 'u', '\'', 'r', 'e']

/-- An uppercase letter immediately followed by a lowercase one,
anywhere in the list. -/
def hasUpperLowerPair : List Char → Bool
  | a :: b :: rest => (a.isUpper && b.isLower) || hasUpperLowerPair (b :: rest)
  | _ => false

/-- re.search of the encouragement pattern on a single line: an uppercase
letter followed by at least one lowercase letter, anything, then an
exclamation mark ending the line. Equivalently the line ends with an
exclamation mark and the pair occurs somewhere before it, since the
dot-star absorbs the span in between. -/
def encouragementEnd (l : List Char) : Bool :=
  match l.getLast? with
  | some '!' => hasUpperLowerPair l.dropLast
  | _ => false

/-- re.match of the numbered-recommendation pattern: digits, a dot or a
closing parenthesis, whitespace, then an uppercase letter (this regex has
no IGNORECASE). -/
def numberedLine (s : List Char) : Bool :=
  let ds := s.takeWhile Char.isDigit
  let r1 := s.dropWhile Char.isDigit
  !ds.isEmpty &&
  match r1 with
  | c :: r2 =>
    (c = '.' || c = ')') &&
    (!(r2.takeWhile isPyWs).isEmpty &&
      match r2.dropWhile isPyWs with
      | d :: _ => d.isUpper
      | [] => false)
  | [] => false

/-- re.sub of one leading bullet glyph and the whitespace after it,
followed by str.strip, as the loop applies to an already stripped line. -/
def cleanBullet (l : List Char) : List Char :=
  let l1 := match l with
    | c :: cs => if c = '•' || c = '-' || c = '*' then cs.dropWhile isPyWs else l
    | [] => l
  trimWs l1

/-- The per-line loop of _extract_weak_areas_from_analysis (src/database.py
lines 343-368): strip the line; skip blank and bullet-only lines; stop
altogether at an encouragement line, a table line or a numbered line;
otherwise emit the cleaned line when it is non-empty and under 100
characters. -/
def processLines : List (List Char) → List (List Char)
  | [] => []
  | l :: ls =>
    let line := trimWs l
    if line.isEmpty || onlyBullets line then processLines ls
    else if startsWithL kwYoure line || encouragementEnd line then []
    else if startsWithL ['|'] line then []
    else if numberedLine line then []
    else
      let cleaned_line := cleanBullet line
      if !cleaned_line.isEmpty && cleaned_line.length < 100 then
        cleaned_line :: processLines ls
      else processLines ls

/-- src/database.py, _extract_weak_areas_from_analysis lines 319-370:
find the section, cut it at the lookahead, strip it, return the empty
list when the header is absent or the section strips to nothing, and
otherwise run the per-line loop over its newline-split lines. -/
def extract_weak_areas_from_analysis (analysis_text : List Char) : List (List Char) :=
  match findHeader analysis_text with
  | none => []
  | some rest =>
    let weak_section := trimWs (takeUntilLookahead rest)
    if weak_section.isEmpty then []
    else processLines (splitNl weak_section)

theorem processLines_sublist (ls : List (List Char)) :
    List.Sublist (processLines ls) (ls.map fun l => cleanBullet (trimWs l)) := by
  induction ls with
  | nil => exact List.nil_sublist _
  | cons l ls ih =>
    simp only [processLines, List.map_cons]
    split_ifs
    · exact ih.cons _
    · exact List.nil_sublist _
    · exact List.nil_sublist _
    · exact List.nil_sublist _
    · exact List.Sublist.cons₂ _ ih
    · exact ih.cons _

def c9_text : List Char :=
  "AREAS FOR IMPROVEMENT:\n- Adding fractions\n- Long division\n\n".data ++
    kwYoure ++ " doing great!".data

/-- C9: on the example text the extractor returns exactly the two topics
in order of appearance; in general every output list is an in-order
selection from the cleaned lines of the captured section, so output order
always matches order of appearance, and on a text with no section header
the extractor returns the empty list (it is a total function, so it never
fails). -/
theorem extract_weak_areas_c9 :
    extract_weak_areas_from_analysis c9_text =
      ["Adding fractions".data, "Long division".data] ∧
    (∀ ls : List (List Char),
      List.Sublist (processLines ls) (ls.map fun l => cleanBullet (trimWs l))) ∧
    (∀ t : List Char, findHeader t = none →
      extract_weak_areas_from_analysis t = []) := by
  refine ⟨by decide, processLines_sublist, ?_⟩
  intro t h
  simp [extract_weak_areas_from_analysis, h]

theorem extract_weak_areas_c9_witness :
    extract_weak_areas_from_analysis ("no header here".data) = [] :=
  extract_weak_areas_c9.2.2 ("no header here".data) (by decide)

end NvEd
